import Mathlib

/-!
# Dashboard controller of the LinkedIn scraper (`src/static/js/app.js`)

A shallow embedding of the browser script.  JavaScript strings are lists of characters,
the page is a record with one field per DOM property the script reads or writes, the two
globals `statusInterval` and `startTime` are fields of the application state, and every
effect that leaves the page (alert, confirm, fetch, console) is appended to a trace.

An `async` handler is embedded as one atomic step: the outcome of the request it awaits is
an argument of the step.

Input types.  A status response follows the schema the script reads: three counts, a
flag, a list of profile records and a list of log items.  A count is the natural number
written in the JSON text.  A list that is absent behaves like the empty
list under the guards `x && x.length > 0`, and a text field that is absent behaves like
the empty string under `escapeHtml`, so both are represented by the empty value.
-/

namespace LinkedinScraper

/-! ## Strings -/

/-- A JavaScript string.  Every character the script tests for (white space, the line
feed, the letters of `http`) is a single UTF-16 unit, so trimming, splitting and prefix
tests agree on code points and on code units. -/
abbrev JsString := List Char

/-- The characters removed by `String.prototype.trim`: ECMAScript WhiteSpace and
LineTerminator. -/
def isWhiteSpace (c : Char) : Bool :=
  c.toNat ∈ [0x09, 0x0A, 0x0B, 0x0C, 0x0D, 0x20, 0xA0, 0x1680, 0x2028, 0x2029, 0x202F,
    0x205F, 0x3000, 0xFEFF] || (0x2000 ≤ c.toNat && c.toNat ≤ 0x200A)

/-- The method `s.trim()`. -/
def trim (s : JsString) : JsString :=
  (s.dropWhile isWhiteSpace).rdropWhile isWhiteSpace

/-- The method `s.split(sep)` for a one-character separator; the result is never empty. -/
def split (sep : Char) : JsString → List JsString
  | [] => [[]]
  | c :: cs =>
    if c = sep then [] :: split sep cs
    else match split sep cs with
      | [] => [[c]]
      | l :: ls => (c :: l) :: ls

/-- The method `s.startsWith(p)`. -/
def startsWith (s p : JsString) : Bool := p.isPrefixOf s

/-! ## Numbers

A JavaScript Number is a binary64 value.  The script only handles Numbers with integer
values, so a Number is represented by that integer, and the operations below compute the
correctly rounded binary64 result by exact integer arithmetic. -/

/-- Number of binary digits of `n`, with `fuel` at least that number. -/
def bitLengthAux : Nat → Nat → Nat
  | 0, _ => 0
  | fuel + 1, n => if n = 0 then 0 else bitLengthAux fuel (n / 2) + 1

/-- Number of binary digits of `n`. -/
def bitLength (n : Nat) : Nat := bitLengthAux n n

/-- The integer nearest to `a / b`, the even one on a tie: the rounding of binary64
arithmetic. -/
def roundEven (a b : Nat) : Nat :=
  let q := a / b
  let r := a % b
  if 2 * r < b then q else if b < 2 * r then q + 1 else if q % 2 = 0 then q else q + 1

/-- The Number nearest to the natural number `n`: `n` rounded to 53 significant bits. -/
def toDouble (n : Nat) : Nat :=
  if bitLength n ≤ 53 then n
  else roundEven n (2 ^ (bitLength n - 53)) * 2 ^ (bitLength n - 53)

/-- The Number nearest to the integer `i`. -/
def toDoubleInt : Int → Int
  | Int.ofNat n => Int.ofNat (toDouble n)
  | Int.negSucc n => -Int.ofNat (toDouble (n + 1))

/-- The binary scale of the quotient `a / b` of two positive integers: the pair `(u, d)`,
one of them zero, with `2 ^ 52 ≤ (a / b) * 2 ^ u / 2 ^ d < 2 ^ 53`. -/
def quotientScale (a b : Nat) : Nat × Nat :=
  let la := bitLength a
  let lb := bitLength b
  if b * 2 ^ (la + 53) ≤ a * 2 ^ (53 + lb) then (52 + lb - la, la - (52 + lb))
  else (53 + lb - la, la - (53 + lb))

/-- The 53-bit significand of the binary64 quotient `a / b`, which is this significand
times `2 ^ d / 2 ^ u` for the scale `(u, d)`. -/
def quotientSignificand (a b : Nat) : Nat :=
  roundEven (a * 2 ^ (quotientScale a b).1) (b * 2 ^ (quotientScale a b).2)

/-- The value `Math.floor(a / b)` for Numbers `a ≥ 0` and `b > 0` with integer values. -/
def floorQuotient (a b : Nat) : Nat :=
  if a = 0 then 0
  else quotientSignificand a b * 2 ^ (quotientScale a b).2 / 2 ^ (quotientScale a b).1

/-- The binary64 quotient `a / b` rounded up to an integer, which is
`-Math.floor(-a / b)`. -/
def ceilQuotient (a b : Nat) : Nat :=
  if a = 0 then 0
  else (quotientSignificand a b * 2 ^ (quotientScale a b).2 +
    (2 ^ (quotientScale a b).1 - 1)) / 2 ^ (quotientScale a b).1

/-- The value `Math.floor(a / b)` for a Number `a` with an integer value and `b > 0`. -/
def floorDiv (a : Int) (b : Nat) : Int :=
  match a with
  | Int.ofNat n => Int.ofNat (floorQuotient n b)
  | Int.negSucc n => -Int.ofNat (ceilQuotient (n + 1) b)

/-- The decimal integer with the fewest significant digits whose Number value is `v`,
the one nearest to `v` among those (the even one on a tie); the second argument is the
number of trailing zeros tried first. -/
def shortestDecimalAux (v : Nat) : Nat → Nat
  | 0 => v
  | p + 1 =>
    let lo := v / 10 ^ (p + 1) * 10 ^ (p + 1)
    let hi := lo + 10 ^ (p + 1)
    let okLo := lo ≠ 0 ∧ toDouble lo = v
    let okHi := toDouble hi = v
    if okLo ∧ okHi then
      if v - lo < hi - v then lo
      else if hi - v < v - lo then hi
      else if lo / 10 ^ (p + 1) % 2 = 0 then lo else hi
    else if okLo then lo
    else if okHi then hi
    else shortestDecimalAux v p

/-- The decimal integer whose digits `String(v)` prints for a Number `v`. -/
def shortestDecimal (v : Nat) : Nat :=
  shortestDecimalAux v (Nat.toDigits 10 v).length

/-- The exponent form `d.ddde+N` of a decimal integer. -/
def exponentForm (x : Nat) : JsString :=
  let digits := Nat.toDigits 10 x
  let significant := (digits.reverse.dropWhile fun c => c = '0').reverse
  let mantissa := match significant with
    | [] => ['0']
    | [d] => [d]
    | d :: ds => d :: '.' :: ds
  mantissa ++ "e+".toList ++ Nat.toDigits 10 (digits.length - 1)

/-- The text `String(n)` of the Number nearest to a natural number.  A Number below
`2 ^ 53` is an exact integer and prints all its digits; a larger one prints the fewest
digits that read back as the same Number, in exponent form from `1e21`, and `Infinity`
beyond the largest Number. -/
def natStr (n : Nat) : JsString :=
  if n < 2 ^ 53 then Nat.toDigits 10 n
  else if 2 ^ 1024 ≤ toDouble n then "Infinity".toList
  else if shortestDecimal (toDouble n) < 10 ^ 21 then
    Nat.toDigits 10 (shortestDecimal (toDouble n))
  else exponentForm (shortestDecimal (toDouble n))

/-- The conversion `String(n)` of the Number nearest to an integer. -/
def numStr : Int → JsString
  | Int.ofNat n => natStr n
  | Int.negSucc n => '-' :: natStr (n + 1)

/-- The function `escapeHtml(text)`: the empty string for a falsy text, otherwise what
`innerHTML` returns for a `div` whose `textContent` is the text (the HTML serialisation of
a text node, which escapes the ampersand, the no-break space and the angle brackets). -/
def escapeHtml (text : JsString) : JsString :=
  if text.isEmpty then []
  else text.flatMap fun c =>
    if c = '&' then "&amp;".toList
    else if c = Char.ofNat 0xA0 then "&nbsp;".toList
    else if c = '<' then "&lt;".toList
    else if c = '>' then "&gt;".toList
    else [c]

/-- The function `formatTime(seconds)` for a Number `seconds` with an integer value.  The
quotients are binary64 quotients; the remainder `a % b`, which takes the sign of `a` and
is exact in binary64, is `Int.tmod`. -/
def formatTime (seconds : Int) : JsString :=
  let hours := floorDiv seconds 3600
  let minutes := floorDiv (Int.tmod seconds 3600) 60
  let secs := Int.tmod seconds 60
  if hours > 0 then
    numStr hours ++ "h ".toList ++ numStr minutes ++ "m ".toList ++ numStr secs ++ "s".toList
  else if minutes > 0 then
    numStr minutes ++ "m ".toList ++ numStr secs ++ "s".toList
  else
    numStr secs ++ "s".toList

/-! ## Payloads -/

/-- The object serialised into the body of `POST /api/start`. -/
structure StartBody where
  email : JsString
  password : JsString
  urls : List JsString
  deriving DecidableEq, Repr

/-- One element of `status.profiles_data`.  `index = 0` stands for an absent index, which
`profile.index || idx + 1` treats alike. -/
structure Profile where
  status : JsString
  index : Nat
  name : JsString
  headline : JsString
  location : JsString
  deriving DecidableEq, Repr

/-- One element of `status.progress`: a string, or an object with a `message`. -/
inductive LogItem
  | text (s : JsString)
  | entry (message : JsString)
  deriving DecidableEq, Repr

/-- The JSON object returned by `GET /api/status`. -/
structure Status where
  total : Nat
  completed : Nat
  failed : Nat
  is_running : Bool
  profiles_data : List Profile
  progress : List LogItem
  deriving DecidableEq, Repr

/-- A request handed to `fetch`. -/
structure Request where
  url : JsString
  method : JsString
  headers : List (JsString × JsString)
  body : Option StartBody
  deriving DecidableEq, Repr

/-- What a handler does outside the page. -/
inductive Effect
  | alert (text : JsString)
  | confirm (text : JsString)
  | fetch (request : Request)
  | consoleError (label : JsString)
  deriving DecidableEq, Repr

/-- The decoded body of the reply to `POST /api/start`: JSON `null`, or a value whose
`error` property renders as the given text (empty when absent or falsy). -/
inductive StartData
  | null
  | value (error : JsString)
  deriving DecidableEq, Repr

/-- Outcome of `fetch('/api/start', ...)` followed by `response.json()`. -/
inductive StartReply
  | rejected (message : JsString)
  | undecodable (ok : Bool) (message : JsString)
  | decoded (ok : Bool) (data : StartData)
  deriving DecidableEq, Repr

/-- Outcome of `fetch('/api/stop', ...)`. -/
inductive StopReply
  | resolved
  | rejected
  deriving DecidableEq, Repr

/-- Outcome of `fetch('/api/status')` followed by `response.json()`. -/
inductive StatusReply
  | rejected
  | undecodable
  | decoded (status : Status)
  deriving DecidableEq, Repr

/-- Outcome of `fetch('/health')`. -/
inductive HealthReply
  | rejected
  | resolved (ok : Bool)
  deriving DecidableEq, Repr

/-! ## Page and application state -/

/-- The DOM properties the script reads or writes, named after the element ids. -/
structure Dom where
  email : JsString
  password : JsString
  urls : JsString
  startBtnHidden : Bool
  stopBtnHidden : Bool
  statusCardHidden : Bool
  downloadBtnHidden : Bool
  profilesSectionHidden : Bool
  totalStat : JsString
  completedStat : JsString
  failedStat : JsString
  timeStat : JsString
  progressBarWidth : JsString
  progressPercentage : JsString
  statusBadgeText : JsString
  statusBadgeClass : JsString
  profilesGrid : JsString
  logContainer : JsString
  logScrollTop : Nat
  connectionBackground : JsString
  connectionDotBackground : JsString
  connectionTextColor : JsString
  connectionText : JsString
  deriving DecidableEq, Repr

/-- The script's globals, the interval timers the browser keeps for it, and the trace of
effects.  `nextTimer` is the handle the next `setInterval` returns. -/
structure App where
  dom : Dom
  statusInterval : Option Nat
  startTime : Option Int
  timers : List Nat
  nextTimer : Nat
  trace : List Effect
  deriving DecidableEq, Repr

/-- What the script takes from the browser without computing it itself: the text of
`(completed / total) * 100` in double arithmetic, the text of its `Math.round`, the
scroll offset that results from `scrollTop = scrollHeight` for a given log content, and
the message of the `TypeError` for reading a property of `null`. -/
structure Browser where
  percentText : Nat → Nat → JsString
  percentRound : Nat → Nat → JsString
  scrollBottom : JsString → Nat
  nullReadMessage : JsString

/-! ## Handlers -/

/-- The lookup `icons[type] || ''` of `showNotification`. -/
def icons (type : JsString) : JsString :=
  if type = "success".toList then "‚úÖ".toList
  else if type = "error".toList then "‚ùå".toList
  else if type = "info".toList then "‚ÑπÔ∏è".toList
  else if type = "warning".toList then "‚ö†Ô∏è".toList
  else []

/-- The function `showNotification(message, type)`. -/
def showNotification (message type : JsString) (a : App) : App :=
  { a with trace := a.trace ++ [Effect.alert (icons type ++ " ".toList ++ message)] }

/-- The function `updateConnectionStatus(isConnected)`. -/
def updateConnectionStatus (isConnected : Bool) (d : Dom) : Dom :=
  if isConnected then
    { d with
      connectionBackground := "var(--success-light)".toList
      connectionDotBackground := "var(--success)".toList
      connectionTextColor := "var(--success)".toList
      connectionText := "Connected".toList }
  else
    { d with
      connectionBackground := "var(--danger-light)".toList
      connectionDotBackground := "var(--danger)".toList
      connectionTextColor := "var(--danger)".toList
      connectionText := "Disconnected".toList }

/-- The request `checkServerConnection` passes to `fetch`. -/
def healthRequest : Request :=
  { url := "/health".toList, method := "GET".toList, headers := [], body := none }

/-- The function `checkServerConnection()`. -/
def checkServerConnection (reply : HealthReply) (a : App) : App :=
  let a1 := { a with trace := a.trace ++ [Effect.fetch healthRequest] }
  match reply with
  | HealthReply.resolved ok =>
    if ok then { a1 with dom := updateConnectionStatus true a1.dom }
    else { a1 with dom := updateConnectionStatus false a1.dom }
  | HealthReply.rejected => { a1 with dom := updateConnectionStatus false a1.dom }

/-- The function `resetUI()`. -/
def resetUI (a : App) : App :=
  { a with dom := { a.dom with
      startBtnHidden := false
      stopBtnHidden := true
      statusBadgeText := "Stopped".toList
      statusBadgeClass := "status-badge status-stopped".toList } }

/-- The function `resetStatusCard()`. -/
def resetStatusCard (d : Dom) : Dom :=
  { d with
    totalStat := "0".toList
    completedStat := "0".toList
    failedStat := "0".toList
    timeStat := "0s".toList
    progressBarWidth := "0%".toList
    progressPercentage := "0%".toList
    profilesGrid := []
    logContainer := "<div class=\"log-empty\">Initializing...</div>".toList }

/-- The call `clearInterval(handle)`; `null` and stale handles clear nothing. -/
def clearInterval (handle : Option Nat) (a : App) : App :=
  match handle with
  | none => a
  | some id => { a with timers := a.timers.filter fun t => t ≠ id }

/-- The array `urls` computed at the top of `startScraping`. -/
def parseUrls (urlsText : JsString) : List JsString :=
  ((split '\n' urlsText).map trim).filter fun u => startsWith u "http".toList

/-- The request `startScraping` passes to `fetch`. -/
def startRequest (email password : JsString) (urls : List JsString) : Request :=
  { url := "/api/start".toList
    method := "POST".toList
    headers := [("Content-Type".toList, "application/json".toList)]
    body := some { email := email, password := password, urls := urls } }

/-- The function `startScraping()`; `now` is the reading of `new Date()`. -/
def startScraping (B : Browser) (reply : StartReply) (now : Int) (a : App) : App :=
  let email := trim a.dom.email
  let password := trim a.dom.password
  let urls := parseUrls a.dom.urls
  if email.isEmpty || password.isEmpty then
    showNotification "Please enter your LinkedIn credentials".toList "error".toList a
  else if urls.length = 0 then
    showNotification "Please enter at least one LinkedIn profile URL".toList "error".toList a
  else
    let a1 := { a with dom := resetStatusCard { a.dom with
      startBtnHidden := true
      stopBtnHidden := false
      statusCardHidden := false
      downloadBtnHidden := true } }
    let a2 := { a1 with trace := a1.trace ++ [Effect.fetch (startRequest email password urls)] }
    let failed (message : JsString) : App :=
      resetUI (showNotification ("Network error: ".toList ++ message) "error".toList a2)
    match reply with
    | StartReply.rejected message => failed message
    | StartReply.undecodable _ message => failed message
    | StartReply.decoded true _ =>
      let a3 := showNotification "Scraping started successfully!".toList "success".toList a2
      { a3 with
        startTime := some now
        statusInterval := some a3.nextTimer
        timers := a3.nextTimer :: a3.timers
        nextTimer := a3.nextTimer + 1 }
    | StartReply.decoded false StartData.null => failed B.nullReadMessage
    | StartReply.decoded false (StartData.value error) =>
      resetUI (showNotification
        (if error.isEmpty then "Failed to start scraping".toList else error) "error".toList a2)

/-- The request `stopScraping` passes to `fetch`. -/
def stopRequest : Request :=
  { url := "/api/stop".toList, method := "POST".toList, headers := [], body := none }

/-- The function `stopScraping()`; `confirmed` is the answer to the confirm dialog. -/
def stopScraping (confirmed : Bool) (reply : StopReply) (a : App) : App :=
  let a1 := { a with trace := a.trace ++
    [Effect.confirm "Are you sure you want to stop scraping?".toList] }
  if !confirmed then a1
  else
    let a2 := { a1 with trace := a1.trace ++ [Effect.fetch stopRequest] }
    match reply with
    | StopReply.resolved =>
      resetUI (showNotification "Scraping stopped".toList "info".toList
        (clearInterval a2.statusInterval a2))
    | StopReply.rejected =>
      showNotification "Error stopping scraper".toList "error".toList a2

/-- One card of `updateProfilesGrid`: the template literal with its line breaks and
indentation. -/
def profileCard (idx : Nat) (profile : Profile) : JsString :=
  "\n        <div class=\"profile-card ".toList ++ profile.status ++ " fade-in\">".toList ++
  "\n            <div class=\"profile-index\">#".toList ++
    numStr (if profile.index ≠ 0 then profile.index else idx + 1) ++ "</div>".toList ++
  "\n            <div class=\"profile-name\">".toList ++ escapeHtml profile.name ++
    "</div>".toList ++
  "\n            <div class=\"profile-headline\">".toList ++ escapeHtml profile.headline ++
    "</div>".toList ++
  "\n            <div class=\"profile-location\">üìç ".toList ++
    escapeHtml profile.location ++ "</div>".toList ++
  "\n            <div class=\"profile-status ".toList ++ profile.status ++ "\">".toList ++
  "\n                ".toList ++
    (if profile.status = "success".toList then "‚úÖ Success".toList
     else "‚ùå Failed".toList) ++
  "\n            </div>".toList ++
  "\n        </div>".toList ++
  "\n    ".toList

/-- The function `updateProfilesGrid(profiles)`. -/
def updateProfilesGrid (profiles : List Profile) (d : Dom) : Dom :=
  if profiles.length = 0 then { d with profilesSectionHidden := true }
  else
    { d with
      profilesSectionHidden := false
      profilesGrid := (profiles.enum.map fun p => profileCard p.1 p.2).flatten }

/-- One line of `updateLog`. -/
def logLine (item : LogItem) : JsString :=
  let message := match item with
    | LogItem.text s => s
    | LogItem.entry m => m
  "<div class=\"log-item\">".toList ++ escapeHtml message ++ "</div>".toList

/-- The function `updateLog(progress)`. -/
def updateLog (B : Browser) (progress : List LogItem) (d : Dom) : Dom :=
  if progress.length = 0 then
    { d with logContainer := "<div class=\"log-empty\">No activity yet...</div>".toList }
  else
    let html := (progress.map logLine).flatten
    { d with logContainer := html, logScrollTop := B.scrollBottom html }

/-- The function `updateDashboard(status)`; `startTime` is the global and `now` the
reading of `new Date()`, both in milliseconds. -/
def updateDashboard (B : Browser) (startTime : Option Int) (now : Int) (status : Status)
    (d : Dom) : Dom :=
  let d1 := { d with
    totalStat := numStr status.total
    completedStat := numStr status.completed
    failedStat := numStr status.failed }
  let d2 := match startTime with
    | some t => { d1 with timeStat := formatTime (floorDiv (toDoubleInt (now - t)) 1000) }
    | none => d1
  let d3 :=
    if status.total > 0 then
      { d2 with
        progressBarWidth := B.percentText status.completed status.total ++ "%".toList
        progressPercentage := B.percentRound status.completed status.total ++ "%".toList }
    else
      { d2 with progressBarWidth := "0%".toList, progressPercentage := "0%".toList }
  let d4 :=
    if status.is_running then
      { d3 with
        statusBadgeText := "Running".toList
        statusBadgeClass := "status-badge status-running".toList }
    else d3
  let d5 := if status.profiles_data.length > 0 then updateProfilesGrid status.profiles_data d4
    else d4
  if status.progress.length > 0 then updateLog B status.progress d5 else d5

/-- The function `onScrapingComplete(status)`. -/
def onScrapingComplete (status : Status) (a : App) : App :=
  let a1 := { a with dom := { a.dom with
    statusBadgeText := "Completed".toList
    statusBadgeClass := "status-badge status-completed".toList
    stopBtnHidden := true
    downloadBtnHidden := false
    startBtnHidden := false } }
  showNotification
    ("Scraping completed! ".toList ++ numStr status.completed ++
      " profiles scraped successfully.".toList)
    "success".toList a1

/-- The request `checkStatus` passes to `fetch`. -/
def statusRequest : Request :=
  { url := "/api/status".toList, method := "GET".toList, headers := [], body := none }

/-- The function `checkStatus()`, the callback of the polling timer. -/
def checkStatus (B : Browser) (reply : StatusReply) (now : Int) (a : App) : App :=
  let a1 := { a with trace := a.trace ++ [Effect.fetch statusRequest] }
  let caught : App :=
    { a1 with trace := a1.trace ++ [Effect.consoleError "Error checking status:".toList] }
  match reply with
  | StatusReply.rejected => caught
  | StatusReply.undecodable => caught
  | StatusReply.decoded status =>
    let a2 := { a1 with dom := updateDashboard B a1.startTime now status a1.dom }
    if !status.is_running && status.completed > 0 then
      onScrapingComplete status (clearInterval a2.statusInterval a2)
    else a2

/-! ## The page as a state machine -/

/-- The user actions and timer callbacks of the page. -/
inductive Event
  | start (reply : StartReply) (now : Int)
  | stop (confirmed : Bool) (reply : StopReply)
  | tick (reply : StatusReply) (now : Int)
  | health (reply : HealthReply)
  | edit (email password urls : JsString)

/-- A button can be pressed only while it is shown; a timer callback or a late reply may
arrive at any time. -/
def enabled (a : App) : Event → Bool
  | Event.start _ _ => !a.dom.startBtnHidden
  | Event.stop _ _ => !a.dom.stopBtnHidden
  | _ => true

/-- The handler run for an event. -/
def step (B : Browser) (a : App) : Event → App
  | Event.start reply now => startScraping B reply now a
  | Event.stop confirmed reply => stopScraping confirmed reply a
  | Event.tick reply now => checkStatus B reply now a
  | Event.health reply => checkServerConnection reply a
  | Event.edit email password urls =>
    { a with dom := { a.dom with email := email, password := password, urls := urls } }

/-- States the page can be in: it loads with both globals `null` and no timer, and then
runs enabled handlers one after the other. -/
inductive Reachable (B : Browser) : App → Prop
  | load (a : App) : a.timers = [] → a.statusInterval = none → Reachable B a
  | handle (a : App) (e : Event) : Reachable B a → enabled a e = true → Reachable B (step B a e)

/-- Every active timer is the one `statusInterval` holds, and then the start button is
hidden. -/
def timerInvariant (a : App) : Prop :=
  a.timers = [] ∨
    ∃ id, a.statusInterval = some id ∧ a.timers = [id] ∧ a.dom.startBtnHidden = true

/-! ## Vocabulary of the properties -/

/-- The effects a handler appended to the trace when it took `a` to `b`. -/
def emitted (a b : App) : List Effect := b.trace.drop a.trace.length

/-- Whether an effect is an alert dialog. -/
def isAlert : Effect → Bool
  | Effect.alert _ => true
  | _ => false

/-- The check of `startScraping` as a property of the form: both credentials are
non-empty after trimming and some line of the textarea starts with `http` after
trimming. -/
def formAccepted (d : Dom) : Prop :=
  trim d.email ≠ [] ∧ trim d.password ≠ [] ∧
    ∃ line ∈ split '\n' d.urls, startsWith (trim line) "http".toList = true

instance (d : Dom) : Decidable (formAccepted d) := by
  unfold formAccepted
  infer_instance

/-- Value of a decimal numeral read from the left. -/
def decimalValue (l : List Char) : Nat :=
  l.foldl (fun acc c => acc * 10 + (c.toNat - 48)) 0

/-- The three renderings of a duration, by its hours, minutes and seconds. -/
def renderParts (h m s : Nat) : JsString :=
  if h > 0 then
    (Nat.repr h).toList ++ "h ".toList ++ (Nat.repr m).toList ++ "m ".toList ++
      (Nat.repr s).toList ++ "s".toList
  else if m > 0 then (Nat.repr m).toList ++ "m ".toList ++ (Nat.repr s).toList ++ "s".toList
  else (Nat.repr s).toList ++ "s".toList

/-! ## Concrete pages and replies -/

/-- A browser for closed examples: exact arithmetic stands in for doubles, which it
matches on the quotients used below (`0 / 2` and `1 / 2`). -/
def sampleBrowser : Browser :=
  { percentText := fun c t => numStr (Int.ofNat (100 * c / t))
    percentRound := fun c t => numStr (Int.ofNat ((200 * c + t) / (2 * t)))
    scrollBottom := fun html => html.length
    nullReadMessage := "data is null".toList }

/-- A freshly loaded page with an empty form. -/
def blankDom : Dom :=
  { email := [], password := [], urls := []
    startBtnHidden := false, stopBtnHidden := true, statusCardHidden := true
    downloadBtnHidden := true, profilesSectionHidden := true
    totalStat := "0".toList, completedStat := "0".toList, failedStat := "0".toList
    timeStat := "0s".toList, progressBarWidth := "0%".toList
    progressPercentage := "0%".toList
    statusBadgeText := "Ready".toList, statusBadgeClass := "status-badge".toList
    profilesGrid := [], logContainer := [], logScrollTop := 0
    connectionBackground := [], connectionDotBackground := [], connectionTextColor := []
    connectionText := [] }

/-- The page right after loading, with the form filled in. -/
def filledApp : App :=
  { dom := { blankDom with
      email := " me@example.com".toList
      password := "secret".toList
      urls := "https://www.linkedin.com/in/a\n\n  http://b \nftp://c".toList }
    statusInterval := none, startTime := none, timers := [], nextTimer := 1, trace := [] }

/-- The page right after loading, with a password of blanks only. -/
def blankPasswordApp : App :=
  { filledApp with dom := { filledApp.dom with password := "  \t".toList } }

/-- A page whose polling timer is running. -/
def pollingApp : App :=
  { dom := { blankDom with
      startBtnHidden := true
      stopBtnHidden := false
      statusCardHidden := false }
    statusInterval := some 1, startTime := some 0, timers := [1], nextTimer := 2, trace := [] }

/-- A job that is still running and has reported nothing. -/
def runningStatus : Status :=
  { total := 0, completed := 0, failed := 0, is_running := true, profiles_data := [],
    progress := [] }

/-- A job that is not running and has reported nothing. -/
def idleStatus : Status :=
  { total := 0, completed := 0, failed := 0, is_running := false, profiles_data := [],
    progress := [] }

/-- A finished job in which every profile failed. -/
def allFailedStatus : Status :=
  { total := 2, completed := 0, failed := 2, is_running := false, profiles_data := [],
    progress := [] }

/-- A finished job with one scraped profile. -/
def finishedStatus : Status :=
  { total := 2, completed := 1, failed := 1, is_running := false, profiles_data := [],
    progress := [] }

/-- A profile whose `status` closes the attribute and opens a script element. -/
def markupProfile : Profile :=
  { status := "\"><script>alert(1)</script>".toList, index := 1, name := "A".toList,
    headline := "B".toList, location := "C".toList }

/-- A profile with an ordinary status and angle brackets in its name. -/
def plainProfile : Profile :=
  { status := "success".toList, index := 1, name := "<A>".toList,
    headline := "B & C".toList, location := "C".toList }

/-! ## Numbers: exact quotients below `2 ^ 53` -/

theorem bitLengthAux_spec : ∀ (fuel n : Nat), n ≤ fuel →
    n < 2 ^ bitLengthAux fuel n ∧ ∀ k, n < 2 ^ k → bitLengthAux fuel n ≤ k := by
  intro fuel
  induction fuel with
  | zero =>
    intro n h
    have : n = 0 := by omega
    subst this
    simp [bitLengthAux]
  | succ f ih =>
    intro n h
    by_cases h0 : n = 0
    · subst h0
      simp [bitLengthAux]
    · obtain ⟨h1, h2⟩ := ih (n / 2) (by omega)
      simp only [bitLengthAux, h0, if_false]
      constructor
      · rw [pow_succ]
        omega
      · intro k hk
        cases k with
        | zero => simp at hk; omega
        | succ k =>
          have := h2 k (by rw [pow_succ] at hk; omega)
          omega

theorem lt_two_pow_bitLength (n : Nat) : n < 2 ^ bitLength n :=
  (bitLengthAux_spec n n le_rfl).1

theorem bitLength_le {n k : Nat} (h : n < 2 ^ k) : bitLength n ≤ k :=
  (bitLengthAux_spec n n le_rfl).2 k h

theorem roundEven_add_mul (c b x : Nat) (hb : 0 < b) (hc : c % 2 = 0) :
    roundEven (c * b + x) b = c + roundEven x b := by
  have e1 : (c * b + x) / b = c + x / b := by
    rw [Nat.add_comm, Nat.add_mul_div_right _ _ hb, Nat.add_comm]
  have e2 : (c * b + x) % b = x % b := by
    rw [Nat.add_comm, Nat.add_mul_mod_self_right]
  unfold roundEven
  simp only [e1, e2]
  have e3 : (c + x / b) % 2 = (x / b) % 2 := by omega
  rw [e3]
  split_ifs <;> omega

theorem roundEven_lt (r b T : Nat) (hr : r < b) (hT : b < 2 * T) :
    roundEven (r * T) b < T := by
  have hb : 0 < b := by omega
  have hq : r * T / b < T := by
    apply Nat.div_lt_of_lt_mul
    exact Nat.mul_lt_mul_of_pos_right hr (by omega)
  have hdm : b * (r * T / b) + r * T % b = r * T := Nat.div_add_mod _ _
  have hrT : r * T + T ≤ b * T := by
    have : (r + 1) * T ≤ b * T := Nat.mul_le_mul_right T hr
    linarith [Nat.add_mul r 1 T]
  have hup : b ≤ 2 * (r * T % b) → r * T / b + 1 < T := by
    intro h2
    by_contra hc
    have hge : T - 1 ≤ r * T / b := by omega
    have hmul : b * (T - 1) ≤ b * (r * T / b) := Nat.mul_le_mul_left b hge
    have hexp : b * (T - 1) + b = b * T := by
      have hT1 : T - 1 + 1 = T := by omega
      calc b * (T - 1) + b = b * (T - 1 + 1) := by ring
        _ = b * T := by rw [hT1]
    omega
  unfold roundEven
  simp only []
  split_ifs with h1 h2 h3
  · exact hq
  · exact hup (by omega)
  · exact hq
  · exact hup (by omega)

theorem quotientScale_small (a b : Nat) (ha : a < 2 ^ 53) (hb : 1 ≤ bitLength b) :
    ∃ u, bitLength b ≤ u + 1 ∧ quotientScale a b = (u, 0) := by
  have hla : bitLength a ≤ 53 := bitLength_le ha
  unfold quotientScale
  simp only []
  split_ifs
  · exact ⟨52 + bitLength b - bitLength a, by omega, by
      rw [Prod.mk.injEq]; exact ⟨rfl, by omega⟩⟩
  · exact ⟨53 + bitLength b - bitLength a, by omega, by
      rw [Prod.mk.injEq]; exact ⟨rfl, by omega⟩⟩

theorem floorQuotient_eq (a b : Nat) (ha : a < 2 ^ 53) (hb : 2 ≤ b) :
    floorQuotient a b = a / b := by
  unfold floorQuotient
  by_cases h0 : a = 0
  · simp [h0]
  · simp only [h0, if_false]
    have hlb : b < 2 ^ bitLength b := lt_two_pow_bitLength b
    have hlb2 : 2 ≤ bitLength b := by
      by_contra hc
      have h1 : bitLength b ≤ 1 := by omega
      have : 2 ^ bitLength b ≤ 2 ^ 1 := Nat.pow_le_pow_right (by norm_num) h1
      omega
    obtain ⟨u, hu, hscale⟩ := quotientScale_small a b ha (by omega)
    have hT : b < 2 * 2 ^ u := by
      have : 2 ^ bitLength b ≤ 2 ^ (u + 1) := Nat.pow_le_pow_right (by norm_num) hu
      rw [pow_succ] at this
      omega
    have heven : (a / b * 2 ^ u) % 2 = 0 := by
      obtain ⟨v, rfl⟩ : ∃ v, u = v + 1 := ⟨u - 1, by omega⟩
      rw [pow_succ, ← Nat.mul_assoc]
      exact Nat.mul_mod_left _ _
    have hsplit : a * 2 ^ u = a / b * 2 ^ u * b + a % b * 2 ^ u := by
      have := Nat.div_add_mod a b
      calc a * 2 ^ u = (b * (a / b) + a % b) * 2 ^ u := by rw [this]
        _ = a / b * 2 ^ u * b + a % b * 2 ^ u := by ring
    have hm := roundEven_lt (a % b) b (2 ^ u) (Nat.mod_lt _ (by omega)) hT
    unfold quotientSignificand
    rw [hscale]
    simp only [pow_zero, Nat.mul_one]
    rw [hsplit, roundEven_add_mul _ _ _ (by omega) heven]
    rw [Nat.add_comm, Nat.add_mul_div_right _ _ (Nat.two_pow_pos u),
      Nat.div_eq_of_lt hm, Nat.zero_add]

theorem floorDiv_natCast (n b : Nat) (hn : n < 2 ^ 53) (hb : 2 ≤ b) :
    floorDiv (n : Int) b = ((n / b : Nat) : Int) := by
  show Int.ofNat (floorQuotient n b) = _
  rw [floorQuotient_eq n b hn hb]
  rfl

theorem numStr_natCast (n : Nat) (hn : n < 2 ^ 53) :
    numStr (n : Int) = (Nat.repr n).toList := by
  show natStr n = _
  unfold natStr
  rw [if_pos hn]
  rfl

/-! ## Strings: digits, splitting, trimming -/

theorem digitChar_isDigit : ∀ m < 10, (Nat.digitChar m).isDigit = true ∧
    (Nat.digitChar m).toNat - 48 = m := by decide

theorem toDigitsCore_spec : ∀ (fuel n : Nat) (ds : List Char), n < fuel →
    ∃ l, Nat.toDigitsCore 10 fuel n ds = l ++ ds ∧ (∀ c ∈ l, c.isDigit = true) ∧
      decimalValue l = n := by
  intro fuel
  induction fuel with
  | zero => intro n ds h; omega
  | succ k ih =>
    intro n ds h
    have hd := digitChar_isDigit (n % 10) (Nat.mod_lt _ (by norm_num))
    by_cases h0 : n / 10 = 0
    · refine ⟨[Nat.digitChar (n % 10)], ?_, ?_, ?_⟩
      · simp [Nat.toDigitsCore, h0]
      · intro c hc
        rw [List.mem_singleton] at hc
        rw [hc]; exact hd.1
      · simp only [decimalValue, List.foldl_cons, List.foldl_nil, hd.2]
        omega
    · obtain ⟨l, hl, hdig, hval⟩ := ih (n / 10) (Nat.digitChar (n % 10) :: ds) (by omega)
      refine ⟨l ++ [Nat.digitChar (n % 10)], ?_, ?_, ?_⟩
      · simp [Nat.toDigitsCore, h0, hl]
      · intro c hc
        rcases List.mem_append.1 hc with hc | hc
        · exact hdig c hc
        · rw [List.mem_singleton] at hc
          rw [hc]; exact hd.1
      · have : decimalValue (l ++ [Nat.digitChar (n % 10)]) =
            decimalValue l * 10 + ((Nat.digitChar (n % 10)).toNat - 48) := by
          simp [decimalValue, List.foldl_append]
        rw [this, hval, hd.2]
        omega

theorem toDigits_isDigit (n : Nat) : ∀ c ∈ Nat.toDigits 10 n, c.isDigit = true := by
  obtain ⟨l, hl, hdig, _⟩ := toDigitsCore_spec (n + 1) n [] (Nat.lt_succ_self n)
  rw [List.append_nil] at hl
  intro c hc
  exact hdig c (by rw [← hl]; exact hc)

theorem decimalValue_toDigits (n : Nat) : decimalValue (Nat.toDigits 10 n) = n := by
  obtain ⟨l, hl, _, hval⟩ := toDigitsCore_spec (n + 1) n [] (Nat.lt_succ_self n)
  rw [List.append_nil] at hl
  show decimalValue (Nat.toDigitsCore 10 (n + 1) n []) = n
  rw [hl, hval]

theorem toDigits_injective {a b : Nat} (h : Nat.toDigits 10 a = Nat.toDigits 10 b) : a = b := by
  have := congrArg decimalValue h
  rwa [decimalValue_toDigits, decimalValue_toDigits] at this

theorem digits_split : ∀ (l1 l2 r1 r2 : List Char) (c1 c2 : Char),
    (∀ c ∈ l1, c.isDigit = true) → (∀ c ∈ l2, c.isDigit = true) →
    c1.isDigit = false → c2.isDigit = false →
    l1 ++ c1 :: r1 = l2 ++ c2 :: r2 → l1 = l2 ∧ c1 = c2 ∧ r1 = r2 := by
  intro l1
  induction l1 with
  | nil =>
    intro l2 r1 r2 c1 c2 _ h2 hc1 _ h
    cases l2 with
    | nil => simpa using h
    | cons x xs =>
      simp only [List.nil_append, List.cons_append, List.cons.injEq] at h
      have := h2 x (List.mem_cons_self _ _)
      rw [← h.1, hc1] at this
      exact absurd this (by simp)
  | cons y ys ih =>
    intro l2 r1 r2 c1 c2 h1 h2 hc1 hc2 h
    cases l2 with
    | nil =>
      simp only [List.nil_append, List.cons_append, List.cons.injEq] at h
      have := h1 y (List.mem_cons_self _ _)
      rw [h.1, hc2] at this
      exact absurd this (by simp)
    | cons x xs =>
      simp only [List.cons_append, List.cons.injEq] at h
      obtain ⟨e1, e2, e3⟩ := ih xs r1 r2 c1 c2 (fun c hc => h1 c (List.mem_cons_of_mem _ hc))
        (fun c hc => h2 c (List.mem_cons_of_mem _ hc)) hc1 hc2 h.2
      exact ⟨by rw [h.1, e1], e2, e3⟩

theorem formatTime_natCast (n : Nat) (hn : n < 2 ^ 53) :
    formatTime (n : Int) = renderParts (n / 3600) (n % 3600 / 60) (n % 60) := by
  have h53 : (2 : Nat) ^ 53 = 9007199254740992 := by norm_num
  have e1 : floorDiv (n : Int) 3600 = ((n / 3600 : Nat) : Int) :=
    floorDiv_natCast n 3600 hn (by norm_num)
  have e2 : Int.tmod (n : Int) 3600 = ((n % 3600 : Nat) : Int) := rfl
  have e3 : Int.tmod (n : Int) 60 = ((n % 60 : Nat) : Int) := rfl
  have e4 : floorDiv ((n % 3600 : Nat) : Int) 60 = ((n % 3600 / 60 : Nat) : Int) :=
    floorDiv_natCast _ 60 (by omega) (by norm_num)
  have e5 : numStr ((n / 3600 : Nat) : Int) = (Nat.repr (n / 3600)).toList :=
    numStr_natCast _ (by omega)
  have e6 : numStr ((n % 3600 / 60 : Nat) : Int) = (Nat.repr (n % 3600 / 60)).toList :=
    numStr_natCast _ (by omega)
  have e7 : numStr ((n % 60 : Nat) : Int) = (Nat.repr (n % 60)).toList :=
    numStr_natCast _ (by omega)
  unfold formatTime renderParts
  simp only [e1, e2, e3, e4, e5, e6, e7, Int.natCast_pos, gt_iff_lt]

theorem renderParts_eq (h m s : Nat) :
    renderParts h m s =
      if h > 0 then
        Nat.toDigits 10 h ++ 'h' :: ' ' ::
          (Nat.toDigits 10 m ++ 'm' :: ' ' :: (Nat.toDigits 10 s ++ ['s']))
      else if m > 0 then Nat.toDigits 10 m ++ 'm' :: ' ' :: (Nat.toDigits 10 s ++ ['s'])
      else Nat.toDigits 10 s ++ ['s'] := by
  have e1 : "h ".toList = ['h', ' '] := rfl
  have e2 : "m ".toList = ['m', ' '] := rfl
  have e3 : "s".toList = ['s'] := rfl
  have e4 : ∀ k : Nat, (Nat.repr k).toList = Nat.toDigits 10 k := fun _ => rfl
  unfold renderParts
  simp only [e1, e2, e3, e4, List.append_assoc, List.cons_append, List.nil_append]

theorem renderParts_injective {h m s h2 m2 s2 : Nat}
    (e : renderParts h m s = renderParts h2 m2 s2) : h = h2 ∧ m = m2 ∧ s = s2 := by
  have dg := toDigits_isDigit
  have nh : Char.isDigit 'h' = false := by decide
  have nm : Char.isDigit 'm' = false := by decide
  have ns : Char.isDigit 's' = false := by decide
  rw [renderParts_eq, renderParts_eq] at e
  split_ifs at e with a1 a2 a3 a4 a5 a6
  · obtain ⟨p1, _, q1⟩ := digits_split _ _ _ _ _ _ (dg h) (dg h2) nh nh e
    obtain ⟨p2, _, q2⟩ := digits_split _ _ _ _ _ _ (dg m) (dg m2) nm nm (List.cons.inj q1).2
    obtain ⟨p3, _, _⟩ := digits_split _ _ _ _ _ _ (dg s) (dg s2) ns ns (List.cons.inj q2).2
    exact ⟨toDigits_injective p1, toDigits_injective p2, toDigits_injective p3⟩
  · exact absurd (digits_split _ _ _ _ _ _ (dg h) (dg m2) nh nm e).2.1 (by decide)
  · exact absurd (digits_split _ _ _ _ _ _ (dg h) (dg s2) nh ns e).2.1 (by decide)
  · exact absurd (digits_split _ _ _ _ _ _ (dg m) (dg h2) nm nh e).2.1 (by decide)
  · obtain ⟨p2, _, q2⟩ := digits_split _ _ _ _ _ _ (dg m) (dg m2) nm nm e
    obtain ⟨p3, _, _⟩ := digits_split _ _ _ _ _ _ (dg s) (dg s2) ns ns (List.cons.inj q2).2
    exact ⟨by omega, toDigits_injective p2, toDigits_injective p3⟩
  · exact absurd (digits_split _ _ _ _ _ _ (dg m) (dg s2) nm ns e).2.1 (by decide)
  · exact absurd (digits_split _ _ _ _ _ _ (dg s) (dg h2) ns nh e).2.1 (by decide)
  · exact absurd (digits_split _ _ _ _ _ _ (dg s) (dg m2) ns nm e).2.1 (by decide)
  · obtain ⟨p3, _, _⟩ := digits_split _ _ _ _ _ _ (dg s) (dg s2) ns ns e
    exact ⟨by omega, by omega, toDigits_injective p3⟩

theorem split_ne_nil (sep : Char) (s : JsString) : split sep s ≠ [] := by
  cases s with
  | nil => simp [split]
  | cons c cs =>
    unfold split
    split_ifs
    · simp
    · split <;> simp

theorem intercalate_cons_head (sep c : Char) (l : JsString) (ls : List JsString) :
    List.intercalate [sep] ((c :: l) :: ls) = c :: List.intercalate [sep] (l :: ls) := by
  cases ls <;> simp [List.intercalate, List.intersperse]

theorem split_intercalate (sep : Char) (s : JsString) :
    List.intercalate [sep] (split sep s) = s := by
  induction s with
  | nil => simp [split, List.intercalate]
  | cons c cs ih =>
    unfold split
    split_ifs with h
    · have hne := split_ne_nil sep cs
      cases hs : split sep cs with
      | nil => exact absurd hs hne
      | cons l ls =>
        rw [hs] at ih
        rw [← ih, h]
        simp [List.intercalate, List.intersperse]
    · have hne := split_ne_nil sep cs
      cases hs : split sep cs with
      | nil => exact absurd hs hne
      | cons l ls =>
        rw [hs] at ih
        simp only []
        rw [intercalate_cons_head, ih]

theorem split_no_sep (sep : Char) (s : JsString) : ∀ l ∈ split sep s, sep ∉ l := by
  induction s with
  | nil => simp [split]
  | cons c cs ih =>
    unfold split
    split_ifs with h
    · intro l hl
      rcases List.mem_cons.1 hl with rfl | hl
      · simp
      · exact ih l hl
    · cases hs : split sep cs with
      | nil => simp [Ne.symm h]
      | cons l ls =>
        rw [hs] at ih
        intro x hx
        rcases List.mem_cons.1 hx with rfl | hx
        · have := ih l (List.mem_cons_self _ _)
          simp [Ne.symm h, this]
        · exact ih x (List.mem_cons_of_mem _ hx)

theorem trim_getLast (s : JsString) (c : Char) (h : (trim s).getLast? = some c) :
    isWhiteSpace c = false := by
  have hne : trim s ≠ [] := by
    intro e; rw [e] at h; simp at h
  have := List.rdropWhile_last_not (p := isWhiteSpace) (l := s.dropWhile isWhiteSpace) hne
  rw [List.getLast?_eq_getLast _ hne] at h
  have hc : (trim s).getLast hne = c := Option.some.inj h
  rw [← hc]
  simpa [trim] using this

theorem trim_head (s : JsString) (c : Char) (h : (trim s).head? = some c) :
    isWhiteSpace c = false := by
  obtain ⟨t, ht⟩ := List.rdropWhile_prefix (p := isWhiteSpace) (l := s.dropWhile isWhiteSpace)
  have hd : (s.dropWhile isWhiteSpace).head? = some c := by
    rw [← ht]
    change (trim s ++ t).head? = some c
    cases hts : trim s with
    | nil => rw [hts] at h; simp at h
    | cons x xs => rw [hts] at h; simpa using h
  have := List.head?_dropWhile_not isWhiteSpace s
  rw [hd] at this
  simpa using this

/-! ## The form check of `startScraping` -/

theorem parseUrls_ne_nil_iff (t : JsString) :
    parseUrls t ≠ [] ↔ ∃ line ∈ split '\n' t, startsWith (trim line) "http".toList = true := by
  unfold parseUrls
  rw [Ne, List.filter_eq_nil_iff]
  simp

theorem trim_eq_nil_of_blank (s : JsString) (h : ∀ c ∈ s, isWhiteSpace c = true) :
    trim s = [] := by
  unfold trim
  rw [List.dropWhile_eq_nil_iff.2 h]
  simp

theorem startScraping_rejected_form (B : Browser) (reply : StartReply) (now : Int) (a : App)
    (h : ¬ formAccepted a.dom) :
    ∃ message, startScraping B reply now a = showNotification message "error".toList a := by
  unfold startScraping
  by_cases h1 : ((trim a.dom.email).isEmpty || (trim a.dom.password).isEmpty) = true
  · exact ⟨_, by simp only [h1, if_true]; rfl⟩
  · by_cases h2 : (parseUrls a.dom.urls).length = 0
    · exact ⟨_, by simp only [h1, h2, if_true]; rfl⟩
    · exfalso
      apply h
      simp only [Bool.or_eq_true, List.isEmpty_iff, not_or] at h1
      refine ⟨h1.1, h1.2, (parseUrls_ne_nil_iff _).1 ?_⟩
      intro hnil
      exact h2 (by rw [hnil]; rfl)

theorem startScraping_accepted_form (B : Browser) (reply : StartReply) (now : Int) (a : App)
    (h : formAccepted a.dom) :
    ∃ text, emitted a (startScraping B reply now a) =
      [Effect.fetch (startRequest (trim a.dom.email) (trim a.dom.password)
        (parseUrls a.dom.urls)), Effect.alert text] := by
  obtain ⟨h1, h2, h3⟩ := h
  have h3 := (parseUrls_ne_nil_iff _).2 h3
  have c1 : ((trim a.dom.email).isEmpty || (trim a.dom.password).isEmpty) = false := by
    simp [List.isEmpty_iff, h1, h2]
  have c2 : ¬ (parseUrls a.dom.urls).length = 0 := by
    intro hl; exact h3 (List.length_eq_zero.1 hl)
  unfold startScraping emitted
  simp only [c1, c2, if_false, Bool.false_eq_true]
  cases reply with
  | rejected m => exact ⟨_, by simp [resetUI, showNotification]; rfl⟩
  | undecodable ok m => exact ⟨_, by simp [resetUI, showNotification]; rfl⟩
  | decoded ok data =>
    cases ok with
    | true => exact ⟨_, by simp [showNotification]; rfl⟩
    | false =>
      cases data with
      | null => exact ⟨_, by simp [resetUI, showNotification]; rfl⟩
      | value e => exact ⟨_, by simp [resetUI, showNotification]; rfl⟩

/-! ## The dashboard -/

theorem updateDashboard_eq (B : Browser) (startTime : Option Int) (now : Int)
    (s : Status) (d : Dom) :
    updateDashboard B startTime now s d =
      { d with
        totalStat := numStr s.total
        completedStat := numStr s.completed
        failedStat := numStr s.failed
        timeStat := match startTime with
          | some t => formatTime (floorDiv (toDoubleInt (now - t)) 1000)
          | none => d.timeStat
        progressBarWidth :=
          if s.total > 0 then B.percentText s.completed s.total ++ "%".toList
          else "0%".toList
        progressPercentage :=
          if s.total > 0 then B.percentRound s.completed s.total ++ "%".toList
          else "0%".toList
        statusBadgeText := if s.is_running then "Running".toList else d.statusBadgeText
        statusBadgeClass :=
          if s.is_running then "status-badge status-running".toList else d.statusBadgeClass
        profilesSectionHidden :=
          if s.profiles_data.length > 0 then false else d.profilesSectionHidden
        profilesGrid :=
          if s.profiles_data.length > 0 then
            (s.profiles_data.enum.map fun p => profileCard p.1 p.2).flatten
          else d.profilesGrid
        logContainer :=
          if s.progress.length > 0 then (s.progress.map logLine).flatten else d.logContainer
        logScrollTop :=
          if s.progress.length > 0 then B.scrollBottom (s.progress.map logLine).flatten
          else d.logScrollTop } := by
  obtain ⟨total, completed, failed, running, profiles, progress⟩ := s
  cases startTime <;> cases running <;> cases profiles <;> cases progress <;>
    by_cases ht : total > 0 <;>
    simp only [updateDashboard, updateProfilesGrid, updateLog, ht, if_true, if_false,
      List.length_nil, List.length_cons, gt_iff_lt, lt_self_iff_false, Nat.succ_pos,
      Nat.zero_lt_succ, Nat.succ_ne_zero, Bool.false_eq_true, Nat.add_one_ne_zero,
      add_pos_iff, zero_lt_one, or_true]

theorem escapeHtml_no_markup (t : JsString) : '<' ∉ escapeHtml t ∧ '>' ∉ escapeHtml t := by
  unfold escapeHtml
  split_ifs
  · simp
  · constructor
    · intro h
      obtain ⟨c, _, hc⟩ := List.mem_flatMap.1 h
      split_ifs at hc with h1 h2 h3 h4
      · simp at hc
      · simp at hc
      · simp at hc
      · simp at hc
      · exact h3 (List.mem_singleton.1 hc).symm
    · intro h
      obtain ⟨c, _, hc⟩ := List.mem_flatMap.1 h
      split_ifs at hc with h1 h2 h3 h4
      · simp at hc
      · simp at hc
      · simp at hc
      · simp at hc
      · exact h4 (List.mem_singleton.1 hc).symm

/-! ## The polling timer -/

theorem startScraping_timers (B : Browser) (reply : StartReply) (now : Int) (a : App)
    (h : a.timers = []) : timerInvariant (startScraping B reply now a) := by
  unfold startScraping
  by_cases h1 : ((trim a.dom.email).isEmpty || (trim a.dom.password).isEmpty) = true
  · simp only [h1, if_true]
    exact Or.inl h
  · by_cases h2 : (parseUrls a.dom.urls).length = 0
    · simp only [h1, h2, if_true]
      exact Or.inl h
    · simp only [h1, h2, if_false]
      cases reply with
      | rejected m => exact Or.inl h
      | undecodable ok m => exact Or.inl h
      | decoded ok data =>
        cases ok with
        | true =>
          refine Or.inr ⟨a.nextTimer, rfl, ?_, rfl⟩
          simp [showNotification, h]
        | false => cases data <;> exact Or.inl h

theorem clearInterval_timers (b : App) (handle : Option Nat)
    (h : b.timers = [] ∨ ∃ id, handle = some id ∧ b.timers = [id]) :
    (clearInterval handle b).timers = [] := by
  rcases h with h | ⟨id, h1, h2⟩
  · cases handle <;> simp [clearInterval, h]
  · simp [clearInterval, h1, h2]

theorem timerInvariant_weaken (a : App) (h : timerInvariant a) :
    a.timers = [] ∨ ∃ id, a.statusInterval = some id ∧ a.timers = [id] := by
  rcases h with h | ⟨id, h1, h2, _⟩
  · exact Or.inl h
  · exact Or.inr ⟨id, h1, h2⟩

theorem stopScraping_timers (confirmed : Bool) (reply : StopReply) (a : App)
    (h : timerInvariant a) : timerInvariant (stopScraping confirmed reply a) := by
  cases confirmed with
  | false => exact h
  | true =>
    cases reply with
    | resolved =>
      refine Or.inl ?_
      exact clearInterval_timers
        { a with trace := a.trace ++ [Effect.confirm "Are you sure you want to stop scraping?".toList]
            ++ [Effect.fetch stopRequest] } a.statusInterval (timerInvariant_weaken a h)
    | rejected => exact h

theorem checkStatus_timers (B : Browser) (reply : StatusReply) (now : Int) (a : App)
    (h : timerInvariant a) : timerInvariant (checkStatus B reply now a) := by
  cases reply with
  | rejected => exact h
  | undecodable => exact h
  | decoded s =>
    unfold checkStatus
    simp only []
    split_ifs
    · refine Or.inl ?_
      exact clearInterval_timers
        { a with
          dom := updateDashboard B a.startTime now s a.dom
          trace := a.trace ++ [Effect.fetch statusRequest] } a.statusInterval
        (timerInvariant_weaken a h)
    · rcases h with h | ⟨id, h1, h2, h3⟩
      · exact Or.inl h
      · exact Or.inr ⟨id, h1, h2, by
          show (updateDashboard B a.startTime now s a.dom).startBtnHidden = true
          rw [updateDashboard_eq]; exact h3⟩

theorem timerInvariant_step (B : Browser) (a : App) (e : Event) (h : timerInvariant a)
    (he : enabled a e = true) : timerInvariant (step B a e) := by
  cases e with
  | start reply now =>
    apply startScraping_timers
    rcases h with h | ⟨id, _, _, h3⟩
    · exact h
    · simp [enabled, h3] at he
  | stop confirmed reply => exact stopScraping_timers confirmed reply a h
  | tick reply now => exact checkStatus_timers B reply now a h
  | health reply =>
    cases reply with
    | rejected => exact h
    | resolved ok => cases ok <;> exact h
  | edit email password urls => exact h

theorem reachable_timerInvariant (B : Browser) (a : App) (h : Reachable B a) :
    timerInvariant a := by
  induction h with
  | load a h1 _ => exact Or.inl h1
  | handle a e _ he ih => exact timerInvariant_step B a e ih he

/-! ## Helper facts on the handlers' traces -/

theorem checkStatus_failed (B : Browser) (now : Int) (a : App) :
    checkStatus B StatusReply.rejected now a =
        { a with trace := a.trace ++
            [Effect.fetch statusRequest, Effect.consoleError "Error checking status:".toList] } ∧
      checkStatus B StatusReply.undecodable now a =
        { a with trace := a.trace ++
            [Effect.fetch statusRequest, Effect.consoleError "Error checking status:".toList] } := by
  constructor <;> simp [checkStatus]

theorem emitted_append (a : App) (b : App) (l : List Effect) (h : b.trace = a.trace ++ l) :
    emitted a b = l := by
  unfold emitted
  rw [h, List.drop_left]

theorem logLine_markup (item : LogItem) : (logLine item).count '<' = 2 := by
  have h : ∀ t : JsString, (escapeHtml t).count '<' = 0 := fun t =>
    List.count_eq_zero.2 (escapeHtml_no_markup t).1
  cases item <;> simp [logLine, List.count_append, h]

/-! ## The claims -/

set_option maxRecDepth 100000

/-- Claim C1: `startScraping` sends `POST /api/start` exactly when the trimmed email and
the trimmed password are non-empty and some line of the textarea starts with `http` after
trimming.  For every other form, a password of white space only among them, it shows one
error alert and changes nothing else: no request, no timer, the same DOM and globals. -/
theorem startScraping_sends_iff_form_accepted (B : Browser) (reply : StartReply) (now : Int)
    (a : App) :
    ((∃ r, Effect.fetch r ∈ emitted a (startScraping B reply now a) ∧
        r.url = "/api/start".toList ∧ r.method = "POST".toList) ↔ formAccepted a.dom) ∧
    (¬ formAccepted a.dom →
      (∃ message, startScraping B reply now a =
        { a with trace := a.trace ++ [Effect.alert ("‚ùå ".toList ++ message)] }) ∧
      (∀ r, Effect.fetch r ∉ emitted a (startScraping B reply now a)) ∧
      (startScraping B reply now a).timers = a.timers ∧
      (startScraping B reply now a).dom = a.dom) ∧
    ((∀ c ∈ a.dom.password, isWhiteSpace c = true) → ¬ formAccepted a.dom) := by
  have hbad : ¬ formAccepted a.dom →
      ∃ message, startScraping B reply now a =
        { a with trace := a.trace ++ [Effect.alert ("‚ùå ".toList ++ message)] } := by
    intro h
    obtain ⟨m, hm⟩ := startScraping_rejected_form B reply now a h
    exact ⟨m, by rw [hm]; rfl⟩
  refine ⟨⟨?_, ?_⟩, ?_, ?_⟩
  · rintro ⟨r, hr, _, _⟩
    by_contra h
    obtain ⟨m, hm⟩ := hbad h
    rw [hm, emitted_append a _ _ rfl] at hr
    simp at hr
  · intro h
    obtain ⟨t, ht⟩ := startScraping_accepted_form B reply now a h
    exact ⟨_, by rw [ht]; exact List.mem_cons_self _ _, rfl, rfl⟩
  · intro h
    obtain ⟨m, hm⟩ := hbad h
    refine ⟨⟨m, hm⟩, ?_, by rw [hm], by rw [hm]⟩
    intro r hr
    rw [hm, emitted_append a _ _ rfl] at hr
    simp at hr
  · intro hw h
    exact h.2.1 (trim_eq_nil_of_blank _ hw)

theorem startScraping_sends_iff_form_accepted_witness :
    (∀ c ∈ blankPasswordApp.dom.password, isWhiteSpace c = true) ∧
      ¬ formAccepted blankPasswordApp.dom ∧
      (startScraping sampleBrowser (StartReply.decoded true StartData.null) 0
        blankPasswordApp).dom = blankPasswordApp.dom :=
  have h := startScraping_sends_iff_form_accepted sampleBrowser
    (StartReply.decoded true StartData.null) 0 blankPasswordApp
  ⟨by decide, h.2.2 (by decide), (h.2.1 (h.2.2 (by decide))).2.2.2⟩

/-- Claim C2 as amended: when the status reports `is_running` false and `completed`
greater than zero, `checkStatus` clears the timer whose handle `statusInterval` holds,
leaving any other timer, and runs the completion handling (badge, buttons, alert); if that
timer was the only active one, none remains.  For every other status it only updates the
dashboard: no timer is cleared, no alert is shown and the buttons stay as they were. -/
theorem checkStatus_completion (B : Browser) (now : Int) (a : App) (s : Status) :
    (s.is_running = false ∧ s.completed > 0 →
      (checkStatus B (StatusReply.decoded s) now a).timers =
          (a.timers.filter fun t => some t ≠ a.statusInterval) ∧
      (∀ id, a.statusInterval = some id → a.timers = [id] →
        (checkStatus B (StatusReply.decoded s) now a).timers = []) ∧
      (checkStatus B (StatusReply.decoded s) now a).dom.statusBadgeText =
        "Completed".toList ∧
      (checkStatus B (StatusReply.decoded s) now a).dom.statusBadgeClass =
        "status-badge status-completed".toList ∧
      (checkStatus B (StatusReply.decoded s) now a).dom.stopBtnHidden = true ∧
      (checkStatus B (StatusReply.decoded s) now a).dom.downloadBtnHidden = false ∧
      (checkStatus B (StatusReply.decoded s) now a).dom.startBtnHidden = false ∧
      emitted a (checkStatus B (StatusReply.decoded s) now a) =
        [Effect.fetch statusRequest,
          Effect.alert ("‚úÖ Scraping completed! ".toList ++ numStr s.completed ++
            " profiles scraped successfully.".toList)]) ∧
    (¬ (s.is_running = false ∧ s.completed > 0) →
      checkStatus B (StatusReply.decoded s) now a =
        { a with
          dom := updateDashboard B a.startTime now s a.dom
          trace := a.trace ++ [Effect.fetch statusRequest] } ∧
      (checkStatus B (StatusReply.decoded s) now a).timers = a.timers ∧
      (checkStatus B (StatusReply.decoded s) now a).statusInterval = a.statusInterval ∧
      (checkStatus B (StatusReply.decoded s) now a).dom.startBtnHidden =
        a.dom.startBtnHidden ∧
      (checkStatus B (StatusReply.decoded s) now a).dom.stopBtnHidden =
        a.dom.stopBtnHidden ∧
      (checkStatus B (StatusReply.decoded s) now a).dom.downloadBtnHidden =
        a.dom.downloadBtnHidden ∧
      emitted a (checkStatus B (StatusReply.decoded s) now a) =
        [Effect.fetch statusRequest]) := by
  constructor
  · rintro ⟨h1, h2⟩
    have hc : (!s.is_running && decide (s.completed > 0)) = true := by simp [h1, h2]
    have e : checkStatus B (StatusReply.decoded s) now a =
        onScrapingComplete s (clearInterval a.statusInterval
          { a with
            dom := updateDashboard B a.startTime now s a.dom
            trace := a.trace ++ [Effect.fetch statusRequest] }) := by
      unfold checkStatus
      simp only [hc, if_true]
    rw [e]
    cases hs : a.statusInterval with
    | none =>
      refine ⟨?_, by simp, rfl, rfl, rfl, rfl, rfl, ?_⟩
      · simp [onScrapingComplete, showNotification, clearInterval]
      · simp [emitted, onScrapingComplete, showNotification, clearInterval, icons]
    | some id =>
      refine ⟨?_, ?_, rfl, rfl, rfl, rfl, rfl, ?_⟩
      · simp only [onScrapingComplete, showNotification, clearInterval]
        apply List.filter_congr
        intro t _
        simp
      · intro id2 hid ht
        cases hid
        simp [onScrapingComplete, showNotification, clearInterval, ht]
      · simp [emitted, onScrapingComplete, showNotification, clearInterval, icons]
  · intro h
    have hc : (!s.is_running && decide (s.completed > 0)) = false := by
      cases hr : s.is_running
      · have : ¬ s.completed > 0 := fun h2 => h ⟨hr, h2⟩
        simp [this]
      · simp
    have e : checkStatus B (StatusReply.decoded s) now a =
        { a with
          dom := updateDashboard B a.startTime now s a.dom
          trace := a.trace ++ [Effect.fetch statusRequest] } := by
      unfold checkStatus
      simp only [hc, Bool.false_eq_true, if_false]
    rw [e]
    refine ⟨rfl, rfl, rfl, ?_, ?_, ?_, emitted_append a _ _ rfl⟩ <;>
      simp only [updateDashboard_eq]

theorem checkStatus_completion_witness :
    (finishedStatus.is_running = false ∧ finishedStatus.completed > 0) ∧
      (checkStatus sampleBrowser (StatusReply.decoded finishedStatus) 5000
        pollingApp).timers = [] :=
  ⟨⟨rfl, by decide⟩,
    ((checkStatus_completion sampleBrowser 5000 pollingApp finishedStatus).1
      ⟨rfl, by decide⟩).2.1 1 rfl rfl⟩

/-- Claim C2 as stated fails: a status with `is_running` false and `completed` equal to
zero (every profile failed) leaves the polling timer active and the badge untouched, and
no completion alert is shown. -/
theorem checkStatus_all_failed_keeps_polling :
    allFailedStatus.is_running = false ∧
    pollingApp.statusInterval = some 1 ∧
    (checkStatus sampleBrowser (StatusReply.decoded allFailedStatus) 5000 pollingApp).timers
      = [1] ∧
    (checkStatus sampleBrowser (StatusReply.decoded allFailedStatus) 5000
      pollingApp).dom.statusBadgeText ≠ "Completed".toList ∧
    emitted pollingApp
      (checkStatus sampleBrowser (StatusReply.decoded allFailedStatus) 5000 pollingApp) =
      [Effect.fetch statusRequest] := by
  decide

/-- Claim C3: for an accepted form, the one request `startScraping` sends is
`POST /api/start` whose body holds the trimmed email, the trimmed password and the lines
of the textarea, trimmed, that start with `http`, in their order.  The lines are the
pieces between line feeds; every url starts with `http`, neither begins nor ends with
white space, and there is at least one. -/
theorem startScraping_request_body (B : Browser) (reply : StartReply) (now : Int) (a : App)
    (h : formAccepted a.dom) :
    (∃ r text, emitted a (startScraping B reply now a) = [Effect.fetch r, Effect.alert text] ∧
      r.url = "/api/start".toList ∧ r.method = "POST".toList ∧
      r.body = some (StartBody.mk (trim a.dom.email) (trim a.dom.password)
        (((split '\n' a.dom.urls).map trim).filter fun u => startsWith u "http".toList))) ∧
    (List.intercalate ['\n'] (split '\n' a.dom.urls) = a.dom.urls ∧
      ∀ line ∈ split '\n' a.dom.urls, '\n' ∉ line) ∧
    (((split '\n' a.dom.urls).map trim).filter fun u => startsWith u "http".toList) ≠ [] ∧
    ∀ u ∈ ((split '\n' a.dom.urls).map trim).filter fun u => startsWith u "http".toList,
      "http".toList <+: u ∧
      (∀ c, u.head? = some c → isWhiteSpace c = false) ∧
      (∀ c, u.getLast? = some c → isWhiteSpace c = false) := by
  refine ⟨?_, ⟨split_intercalate _ _, split_no_sep _ _⟩, ?_, ?_⟩
  · obtain ⟨t, ht⟩ := startScraping_accepted_form B reply now a h
    exact ⟨_, t, ht, rfl, rfl, rfl⟩
  · exact (parseUrls_ne_nil_iff a.dom.urls).2 h.2.2
  · intro u hu
    obtain ⟨hmem, hpre⟩ := List.mem_filter.1 hu
    obtain ⟨line, _, rfl⟩ := List.mem_map.1 hmem
    refine ⟨?_, trim_head line, trim_getLast line⟩
    have hp : startsWith (trim line) "http".toList = true := by simpa using hpre
    exact List.isPrefixOf_iff_prefix.1 hp

theorem startScraping_request_body_witness :
    formAccepted filledApp.dom ∧
      ((split '\n' filledApp.dom.urls).map trim).filter
        (fun u => startsWith u "http".toList) ≠ [] :=
  ⟨by decide,
    (startScraping_request_body sampleBrowser (StartReply.decoded true StartData.null) 0
      filledApp (by decide)).2.2.1⟩

/-- Claim C4 as amended: a failed request is handled inside the operation and sent once.
`startScraping` and `stopScraping` show an alert; `checkServerConnection` shows
`Disconnected` in the connection indicator and `checkStatus` writes to the console, both
without an alert. -/
theorem request_failure_handling (B : Browser) (now : Int) (a : App) :
    (formAccepted a.dom → ∀ message,
      emitted a (startScraping B (StartReply.rejected message) now a) =
        [Effect.fetch (startRequest (trim a.dom.email) (trim a.dom.password)
            (parseUrls a.dom.urls)),
          Effect.alert ("‚ùå Network error: ".toList ++ message)] ∧
      ∀ ok, emitted a (startScraping B (StartReply.undecodable ok message) now a) =
        [Effect.fetch (startRequest (trim a.dom.email) (trim a.dom.password)
            (parseUrls a.dom.urls)),
          Effect.alert ("‚ùå Network error: ".toList ++ message)]) ∧
    emitted a (stopScraping true StopReply.rejected a) =
      [Effect.confirm "Are you sure you want to stop scraping?".toList,
        Effect.fetch stopRequest, Effect.alert "‚ùå Error stopping scraper".toList] ∧
    (emitted a (checkServerConnection HealthReply.rejected a) = [Effect.fetch healthRequest] ∧
      (checkServerConnection HealthReply.rejected a).dom.connectionText =
        "Disconnected".toList) ∧
    emitted a (checkStatus B StatusReply.rejected now a) =
      [Effect.fetch statusRequest, Effect.consoleError "Error checking status:".toList] ∧
    emitted a (checkStatus B StatusReply.undecodable now a) =
      [Effect.fetch statusRequest, Effect.consoleError "Error checking status:".toList] := by
  refine ⟨?_, ?_, ⟨?_, rfl⟩, ?_, ?_⟩
  · intro h message
    obtain ⟨h1, h2, h3⟩ := h
    have h3 := (parseUrls_ne_nil_iff _).2 h3
    have c1 : ((trim a.dom.email).isEmpty || (trim a.dom.password).isEmpty) = false := by
      simp [List.isEmpty_iff, h1, h2]
    have c2 : ¬ (parseUrls a.dom.urls).length = 0 := by
      intro hl; exact h3 (List.length_eq_zero.1 hl)
    constructor
    · apply emitted_append
      unfold startScraping
      simp only [c1, c2, if_false, Bool.false_eq_true]
      simp [resetUI, showNotification, icons]
    · intro ok
      apply emitted_append
      unfold startScraping
      simp only [c1, c2, if_false, Bool.false_eq_true]
      simp [resetUI, showNotification, icons]
  · apply emitted_append
    simp [stopScraping, showNotification, icons]
  · apply emitted_append
    simp [checkServerConnection]
  · apply emitted_append
    rw [(checkStatus_failed B now a).1]
  · apply emitted_append
    rw [(checkStatus_failed B now a).2]

theorem request_failure_handling_witness :
    formAccepted filledApp.dom ∧
      emitted filledApp
        (startScraping sampleBrowser (StartReply.rejected "Failed to fetch".toList) 0
          filledApp) =
      [Effect.fetch (startRequest (trim filledApp.dom.email) (trim filledApp.dom.password)
          (parseUrls filledApp.dom.urls)),
        Effect.alert ("‚ùå Network error: ".toList ++ "Failed to fetch".toList)] :=
  ⟨by decide,
    ((request_failure_handling sampleBrowser 0 filledApp).1 (by decide)
      "Failed to fetch".toList).1⟩

/-- Claim C4 as stated fails: when the status request is rejected, `checkStatus` emits the
request and a console message and no alert; when the health request is rejected,
`checkServerConnection` emits the request only. -/
theorem failed_poll_shows_no_alert :
    emitted pollingApp (checkStatus sampleBrowser StatusReply.rejected 5000 pollingApp) =
      [Effect.fetch statusRequest, Effect.consoleError "Error checking status:".toList] ∧
    (emitted pollingApp
      (checkStatus sampleBrowser StatusReply.rejected 5000 pollingApp)).any isAlert = false ∧
    (emitted filledApp (checkServerConnection HealthReply.rejected filledApp)).any isAlert
      = false := by
  decide

/-- Claim C5: applying `updateDashboard` twice with the same status, start time and clock
reading gives the same DOM as applying it once. -/
theorem updateDashboard_idempotent (B : Browser) (startTime : Option Int) (now : Int)
    (s : Status) (d : Dom) :
    updateDashboard B startTime now s (updateDashboard B startTime now s d) =
      updateDashboard B startTime now s d := by
  simp only [updateDashboard_eq]
  cases startTime <;> simp only [Dom.mk.injEq, true_and, and_true] <;>
    split_ifs <;> simp

/-- Claim C6 as stated fails: after a tick that reported a running job, a tick that
reports an idle job leaves the badge at `Running`, which that tick alone would not
show. -/
theorem updateDashboard_not_independent :
    updateDashboard sampleBrowser none 0 idleStatus
        (updateDashboard sampleBrowser none 0 runningStatus blankDom) ≠
      updateDashboard sampleBrowser none 0 idleStatus blankDom := by
  decide

/-- Claim C6 as amended: after two ticks the counters, the elapsed time, the bar width
and the percentage are those of the second tick alone.  The badge is, when the second
status is running, and otherwise stays as the first tick left it; the profiles grid and
its section are, when the second `profiles_data` is non-empty, and otherwise stay; the log
is, when the second `progress` is non-empty, and otherwise stays.  With all three set by
the second status the whole DOM is that of the second tick alone; in general it is that
DOM with the stale groups taken from the first tick. -/
theorem updateDashboard_last_tick (B : Browser) (startTime : Option Int) (now : Int)
    (s1 s2 : Status) (d : Dom) :
    let first := updateDashboard B startTime now s1 d
    let twice := updateDashboard B startTime now s2 (updateDashboard B startTime now s1 d)
    let once := updateDashboard B startTime now s2 d
    (twice.totalStat = once.totalStat ∧ twice.completedStat = once.completedStat ∧
      twice.failedStat = once.failedStat ∧ twice.timeStat = once.timeStat ∧
      twice.progressBarWidth = once.progressBarWidth ∧
      twice.progressPercentage = once.progressPercentage) ∧
    (s2.is_running = true → twice.statusBadgeText = once.statusBadgeText ∧
      twice.statusBadgeClass = once.statusBadgeClass) ∧
    (s2.profiles_data ≠ [] → twice.profilesGrid = once.profilesGrid ∧
      twice.profilesSectionHidden = once.profilesSectionHidden) ∧
    (s2.progress ≠ [] → twice.logContainer = once.logContainer ∧
      twice.logScrollTop = once.logScrollTop) ∧
    (s2.is_running = true → s2.profiles_data ≠ [] → s2.progress ≠ [] → twice = once) ∧
    (s2.is_running = false → twice.statusBadgeText = first.statusBadgeText ∧
      twice.statusBadgeClass = first.statusBadgeClass) ∧
    (s2.profiles_data = [] → twice.profilesGrid = first.profilesGrid ∧
      twice.profilesSectionHidden = first.profilesSectionHidden) ∧
    (s2.progress = [] → twice.logContainer = first.logContainer ∧
      twice.logScrollTop = first.logScrollTop) ∧
    twice =
      { once with
        statusBadgeText :=
          if s2.is_running then once.statusBadgeText else first.statusBadgeText
        statusBadgeClass :=
          if s2.is_running then once.statusBadgeClass else first.statusBadgeClass
        profilesGrid :=
          if s2.profiles_data.length > 0 then once.profilesGrid else first.profilesGrid
        profilesSectionHidden :=
          if s2.profiles_data.length > 0 then once.profilesSectionHidden
          else first.profilesSectionHidden
        logContainer :=
          if s2.progress.length > 0 then once.logContainer else first.logContainer
        logScrollTop :=
          if s2.progress.length > 0 then once.logScrollTop else first.logScrollTop } := by
  simp only [updateDashboard_eq]
  refine ⟨?_, ?_, ?_, ?_, ?_, ?_, ?_, ?_, ?_⟩
  · cases startTime <;> simp
  · intro h; simp [h]
  · intro h; simp [List.length_pos.2 h]
  · intro h; simp [List.length_pos.2 h]
  · intro h1 h2 h3
    cases startTime <;> simp [h1, List.length_pos.2 h2, List.length_pos.2 h3]
  · intro h; simp [h]
  · intro h; simp [h]
  · intro h; simp [h]
  · cases startTime <;> cases s2.is_running <;>
      by_cases hp : s2.profiles_data.length > 0 <;>
      by_cases hl : s2.progress.length > 0 <;> simp [hp, hl]

theorem updateDashboard_last_tick_witness :
    runningStatus.is_running = true ∧
      (updateDashboard sampleBrowser none 0 runningStatus
        (updateDashboard sampleBrowser none 0 idleStatus blankDom)).statusBadgeText =
      (updateDashboard sampleBrowser none 0 runningStatus blankDom).statusBadgeText :=
  ⟨rfl,
    ((updateDashboard_last_tick sampleBrowser none 0 idleStatus runningStatus blankDom).2.1
      rfl).1⟩

/-- Claim C7: when the status request is rejected or its body is not JSON, `checkStatus`
adds the request and one console message to the trace and changes nothing else: no alert,
the same DOM, the same `startTime`, the same `statusInterval` and the same timers. -/
theorem checkStatus_failure_only_logs (B : Browser) (now : Int) (a : App) :
    (checkStatus B StatusReply.rejected now a =
        { a with trace := a.trace ++
            [Effect.fetch statusRequest, Effect.consoleError "Error checking status:".toList] } ∧
      checkStatus B StatusReply.undecodable now a =
        { a with trace := a.trace ++
            [Effect.fetch statusRequest,
              Effect.consoleError "Error checking status:".toList] }) ∧
    ((emitted a (checkStatus B StatusReply.rejected now a)).any isAlert = false ∧
      (checkStatus B StatusReply.rejected now a).dom = a.dom ∧
      (checkStatus B StatusReply.rejected now a).startTime = a.startTime ∧
      (checkStatus B StatusReply.rejected now a).statusInterval = a.statusInterval ∧
      (checkStatus B StatusReply.rejected now a).timers = a.timers) ∧
    ((emitted a (checkStatus B StatusReply.undecodable now a)).any isAlert = false ∧
      (checkStatus B StatusReply.undecodable now a).dom = a.dom ∧
      (checkStatus B StatusReply.undecodable now a).startTime = a.startTime ∧
      (checkStatus B StatusReply.undecodable now a).statusInterval = a.statusInterval ∧
      (checkStatus B StatusReply.undecodable now a).timers = a.timers) := by
  obtain ⟨e1, e2⟩ := checkStatus_failed B now a
  refine ⟨⟨e1, e2⟩, ⟨?_, ?_⟩, ⟨?_, ?_⟩⟩
  · rw [emitted_append a _ _ (congrArg App.trace e1)]; rfl
  · rw [e1]; exact ⟨rfl, rfl, rfl, rfl⟩
  · rw [emitted_append a _ _ (congrArg App.trace e2)]; rfl
  · rw [e2]; exact ⟨rfl, rfl, rfl, rfl⟩

/-- Claim C8 fails on the code: `updateProfilesGrid` interpolates `profile.status` without
`escapeHtml`.  A card for an ordinary profile has the twelve `<` of the template, its
escaped name adding none; a status holding markup yields sixteen, with a `script` element
in the generated HTML. -/
theorem profile_status_unescaped :
    (updateProfilesGrid [plainProfile] blankDom).profilesGrid.count '<' = 12 ∧
    (updateProfilesGrid [markupProfile] blankDom).profilesGrid.count '<' = 16 ∧
    "<div class=\"profile-card \"><script>alert(1)</script> fade-in\">".toList <:+:
      (updateProfilesGrid [markupProfile] blankDom).profilesGrid := by
  decide

/-- Claim C9: in every reachable state at most one polling timer is active, and a timer
is active only while the start button is hidden. -/
theorem at_most_one_polling_timer (B : Browser) (a : App) (h : Reachable B a) :
    a.timers.length ≤ 1 ∧ (a.timers ≠ [] → a.dom.startBtnHidden = true) := by
  rcases reachable_timerInvariant B a h with h | ⟨id, _, h2, h3⟩
  · simp [h]
  · simp [h2, h3]

theorem at_most_one_polling_timer_witness :
    Reachable sampleBrowser
        (step sampleBrowser filledApp (Event.start (StartReply.decoded true StartData.null) 0)) ∧
      (step sampleBrowser filledApp
          (Event.start (StartReply.decoded true StartData.null) 0)).timers = [1] ∧
      (step sampleBrowser filledApp
          (Event.start (StartReply.decoded true StartData.null) 0)).timers.length ≤ 1 ∧
      ((step sampleBrowser filledApp
          (Event.start (StartReply.decoded true StartData.null) 0)).timers ≠ [] →
        (step sampleBrowser filledApp
          (Event.start (StartReply.decoded true StartData.null) 0)).dom.startBtnHidden = true) :=
  have hr := Reachable.handle filledApp (Event.start (StartReply.decoded true StartData.null) 0)
    (Reachable.load filledApp rfl rfl) (by decide)
  ⟨hr, by decide, at_most_one_polling_timer sampleBrowser _ hr⟩

/-- Claim C10 as amended: for every whole number of seconds from zero up to `2 ^ 53`
exclusive, `formatTime` prints the hours, minutes and seconds that add up to the input, in
the form chosen by the first non-zero part, and no other input in that range has the same
text. -/
theorem formatTime_parts_and_injective (n : Nat) (hn : n < 2 ^ 53) :
    3600 * (n / 3600) + 60 * (n % 3600 / 60) + n % 60 = n ∧
    n % 3600 / 60 < 60 ∧ n % 60 < 60 ∧
    formatTime (n : Int) =
      (if n / 3600 > 0 then
        (Nat.repr (n / 3600)).toList ++ "h ".toList ++ (Nat.repr (n % 3600 / 60)).toList ++
          "m ".toList ++ (Nat.repr (n % 60)).toList ++ "s".toList
      else if n % 3600 / 60 > 0 then
        (Nat.repr (n % 3600 / 60)).toList ++ "m ".toList ++ (Nat.repr (n % 60)).toList ++
          "s".toList
      else (Nat.repr (n % 60)).toList ++ "s".toList) ∧
    ∀ m : Nat, m < 2 ^ 53 → formatTime (m : Int) = formatTime (n : Int) → m = n := by
  refine ⟨by omega, by omega, by omega, formatTime_natCast n hn, ?_⟩
  intro m hm hmn
  rw [formatTime_natCast m hm, formatTime_natCast n hn] at hmn
  obtain ⟨e1, e2, e3⟩ := renderParts_injective hmn
  omega

theorem formatTime_parts_and_injective_witness :
    (3725 : Nat) < 2 ^ 53 ∧ formatTime ((3725 : Nat) : Int) = "1h 2m 5s".toList :=
  ⟨by decide, (formatTime_parts_and_injective 3725 (by decide)).2.2.2.1⟩

/-- Claim C10 as stated fails: `253327479039593984` is a Number (it has 53 significant
bits), its quotient by 3600 in whole numbers is `70368744177664`, but the binary64
quotient rounds up to the next integer and `formatTime` prints `70368744177665h`. -/
theorem formatTime_large_hours :
    toDouble 253327479039593984 = 253327479039593984 ∧
    253327479039593984 / 3600 = 70368744177664 ∧
    253327479039593984 % 3600 / 60 = 59 ∧ 253327479039593984 % 60 = 44 ∧
    formatTime 253327479039593984 = "70368744177665h 59m 44s".toList ∧
    formatTime 253327479039593984 ≠ "70368744177664h 59m 44s".toList := by
  decide

end LinkedinScraper
